import Mathlib

/-!
Shallow embedding of the pg_ducklake_next bridge and catalog-attachment code.

Sources embedded here:
- src/src/pg_ducklake_duckdb.cpp  — `ducklake_ensure_loaded`, `ducklake_execute_query`,
  the thread-local `last_error` buffer;
- src/unnamed/part_001            — the PostgreSQL-facing `ExecuteDuckDBQuery` /
  `pg_ducklake_next_verify` (bridge variant), and the DuckDB-facing
  `DuckLakeManager::CreateConnection` / `ducklake_load_extension` with the
  per-backend `catalog_attached` flag;
- src/src/pg_ducklake_next.cpp    — the SPI variant of `ExecuteDuckDBQuery` and
  `pg_ducklake_next_verify`.

The embedded DuckDB engine itself (extension loading, ATTACH semantics, SQL
execution) is an external dependency of this repository; where a claim depends
on its behaviour, the corresponding definition is modelled from the spec and
says so in its doc comment.
-/

namespace PgDucklake

/- ===================================================================
   Engine extension loading (claims about ducklake_ensure_loaded /
   ducklake_load_extension)
   =================================================================== -/

/-- Extension registration state of the shared DuckDB instance: whether the
ducklake extension is loaded, and how many times the load routine's side
effects have actually run. -/
structure EngineExtState where
  loaded : Bool
  loadCount : Nat
  deriving Repr, DecidableEq

/-- Modelled from the spec: `duckdb::DuckDB::LoadStaticExtension` is engine
code outside this repository. Per the spec's Extension Registration Record,
an extension's load-state transitions monotonically from unloaded to loaded;
a repeated load request is a no-op once loaded (and the bridge header
documents `ducklake_ensure_loaded` as idempotent, safe to call repeatedly). -/
def LoadStaticExtension (s : EngineExtState) : EngineExtState :=
  if s.loaded then s else { loaded := true, loadCount := s.loadCount + 1 }

/-- `ducklake_ensure_loaded` (src/src/pg_ducklake_duckdb.cpp lines 19-23):
fetches the shared DuckDB instance via `GetDuckDBDatabase()` and calls
`LoadStaticExtension<duckdb::DucklakeExtension>()` on it. -/
def ducklake_ensure_loaded (s : EngineExtState) : EngineExtState :=
  LoadStaticExtension s

/-- `ducklake_load_extension` (src/unnamed/part_001 lines 209-215): same body —
fetches the shared database and calls `LoadStaticExtension`. -/
def ducklake_load_extension (s : EngineExtState) : EngineExtState :=
  LoadStaticExtension s

lemma ducklake_ensure_loaded_of_loaded (s : EngineExtState) (h : s.loaded = true) :
    ducklake_ensure_loaded s = s := by
  simp [ducklake_ensure_loaded, LoadStaticExtension, h]

lemma ducklake_ensure_loaded_loaded (s : EngineExtState) :
    (ducklake_ensure_loaded s).loaded = true := by
  unfold ducklake_ensure_loaded LoadStaticExtension
  by_cases h : s.loaded
  · simp [h]
  · simp [h]

lemma iterate_ensure_loaded_fix (M : Nat) (s : EngineExtState) (h : s.loaded = true) :
    ducklake_ensure_loaded^[M] s = s := by
  induction M with
  | zero => rfl
  | succ m ih =>
      rw [Function.iterate_succ_apply, ducklake_ensure_loaded_of_loaded s h, ih]

/-- C1: calling the bridge operation `ensure_extension_loaded`
(`ducklake_ensure_loaded`, identical to `ducklake_load_extension`) N times,
for any N ≥ 1, starting from an unloaded engine, loads the ducklake extension
exactly once (the load side effects run exactly once); every call returns
normally in this model, and a call on an already-loaded engine is a complete
no-op — it does not re-run the load's side effects. -/
theorem c1_ensure_loaded_exactly_once (N : Nat) (hN : 1 ≤ N) (s : EngineExtState)
    (hs : s.loaded = false) :
    (ducklake_ensure_loaded^[N] s).loaded = true ∧
    (ducklake_ensure_loaded^[N] s).loadCount = s.loadCount + 1 ∧
    (∀ t : EngineExtState, t.loaded = true → ducklake_ensure_loaded t = t) ∧
    ducklake_load_extension s = ducklake_ensure_loaded s := by
  obtain ⟨M, rfl⟩ : ∃ M, N = M + 1 := ⟨N - 1, (Nat.succ_pred_eq_of_pos hN).symm⟩
  have hstep : ducklake_ensure_loaded s =
      { loaded := true, loadCount := s.loadCount + 1 } := by
    simp [ducklake_ensure_loaded, LoadStaticExtension, hs]
  have hfix : ducklake_ensure_loaded^[M + 1] s =
      { loaded := true, loadCount := s.loadCount + 1 } := by
    rw [Function.iterate_succ_apply, hstep]
    exact iterate_ensure_loaded_fix M _ rfl
  refine ⟨by rw [hfix], by rw [hfix], ?_, rfl⟩
  exact fun t ht => ducklake_ensure_loaded_of_loaded t ht

/-- Witness for C1 at N = 3 from a fresh engine state. -/
theorem c1_witness :
    (ducklake_ensure_loaded^[3] ⟨false, 0⟩).loaded = true ∧
    (ducklake_ensure_loaded^[3] ⟨false, 0⟩).loadCount = 0 + 1 := by
  have h := c1_ensure_loaded_exactly_once 3 (by decide) ⟨false, 0⟩ rfl
  exact ⟨h.1, h.2.1⟩

/- ===================================================================
   The query bridge function ducklake_execute_query
   (src/src/pg_ducklake_duckdb.cpp lines 25-48)
   =================================================================== -/

/-- Behaviour of the opaque engine on one `conn->Query(query)` call (the
engine is an external dependency; this is the parameter the bridge code
branches on): the query executed without error, the returned result carries
an error message (`result->HasError()`), or connection setup / execution
threw a `std::exception` carrying a message. -/
inductive EngineOutcome where
  | ok
  | queryError (msg : String)
  | raised (msg : String)
  deriving Repr, DecidableEq

/-- The error message of a failing engine outcome. -/
def errMsgOf : EngineOutcome → String
  | .ok => ""
  | .queryError m => m
  | .raised m => m

/-- What a written `*errmsg_out` points at. The C code always stores
`last_error.c_str()` — the one thread-local buffer — so there is a single
possible target. -/
inductive ErrPtrTarget where
  | lastErrorBuffer
  deriving Repr, DecidableEq

/-- Observable result of one `ducklake_execute_query` call: the returned
status, the content of the thread-local `last_error` buffer after the call,
and what was stored into `*errmsg_out` (`none` when it was not written). -/
structure ExecResult where
  status : Int
  newBuf : String
  written : Option ErrPtrTarget
  deriving Repr, DecidableEq

/-- `ducklake_execute_query` (src/src/pg_ducklake_duckdb.cpp lines 27-48):
on a clean result returns 0 and touches neither `last_error` nor
`*errmsg_out`; if `result->HasError()`, stores the message in `last_error`,
stores `last_error.c_str()` into `*errmsg_out` when `errmsg_out` is non-NULL,
and returns 1; the catch handler for `std::exception` does the same with
`e.what()`. `errmsg_out_nonnull` is whether the caller passed a non-NULL
`errmsg_out`; `last_error` is the buffer content before the call. -/
def ducklake_execute_query (o : EngineOutcome) (errmsg_out_nonnull : Bool)
    (last_error : String) : ExecResult :=
  match o with
  | .ok => { status := 0, newBuf := last_error, written := none }
  | .queryError m =>
      { status := 1, newBuf := m,
        written := if errmsg_out_nonnull then some .lastErrorBuffer else none }
  | .raised m =>
      { status := 1, newBuf := m,
        written := if errmsg_out_nonnull then some .lastErrorBuffer else none }

/-- Outcome of one call to a bridge function returning `int`, at the level of
the C++ call: either the function returned normally with an `ExecResult`, or
an exception unwound out of it across the bridge boundary. -/
inductive ExecCallOutcome where
  | normal (r : ExecResult)
  | unwound (msg : String)
  deriving Repr, DecidableEq

/-- The `try` block of `ducklake_execute_query`: a thrown `std::exception`
leaves the block as an unwind; the other branches return normally. -/
def executeQueryTryBlock (o : EngineOutcome) (nn : Bool) (buf : String) :
    ExecCallOutcome :=
  match o with
  | .ok => .normal { status := 0, newBuf := buf, written := none }
  | .queryError m =>
      .normal { status := 1, newBuf := m,
                written := if nn then some .lastErrorBuffer else none }
  | .raised m => .unwound m

/-- The `catch (const std::exception &e)` handler of `ducklake_execute_query`:
converts an in-flight `std::exception` into status 1 plus the message in
`last_error` (all engine exceptions modelled here derive from
`std::exception`, so the handler matches every unwind). -/
def catchStdException (nn : Bool) : ExecCallOutcome → ExecCallOutcome
  | .normal r => .normal r
  | .unwound m =>
      .normal { status := 1, newBuf := m,
                written := if nn then some .lastErrorBuffer else none }

/-- A full `ducklake_execute_query` call: the try block wrapped in the
std::exception handler. -/
def ducklake_execute_query_call (o : EngineOutcome) (nn : Bool) (buf : String) :
    ExecCallOutcome :=
  catchStdException nn (executeQueryTryBlock o nn buf)

/-- Outcome of one call to the void bridge function `ducklake_ensure_loaded`:
it either returns normally or an exception unwinds out of it. -/
inductive VoidCallOutcome where
  | returns
  | propagates (msg : String)
  deriving Repr, DecidableEq

/-- Behaviour of the underlying engine load
(`db->LoadStaticExtension<duckdb::DucklakeExtension>()`, engine code outside
this repository): it either completes or throws an exception carrying a
message. -/
inductive LoadBehavior where
  | completes
  | raises (msg : String)
  deriving Repr, DecidableEq

/-- A full `ducklake_ensure_loaded` call (src/src/pg_ducklake_duckdb.cpp
lines 19-23): the body is a single call into the engine with no try/catch,
so by C++ semantics an exception thrown by the load propagates out of the
bridge function. -/
def ducklake_ensure_loaded_call : LoadBehavior → VoidCallOutcome
  | .completes => .returns
  | .raises m => .propagates m

/-- C2: `ducklake_execute_query` returns 0 iff the engine executed the query
without error; on any failure it returns a non-zero status, and when the
caller passed a non-NULL `errmsg_out`, `*errmsg_out` is set to point at the
buffer holding the (human-readable) engine error message. -/
theorem c2_execute_query_status (o : EngineOutcome) (nn : Bool) (buf : String) :
    ((ducklake_execute_query o nn buf).status = 0 ↔ o = .ok) ∧
    (o ≠ .ok →
      (ducklake_execute_query o nn buf).status ≠ 0 ∧
      (nn = true →
        (ducklake_execute_query o nn buf).written = some .lastErrorBuffer ∧
        (ducklake_execute_query o nn buf).newBuf = errMsgOf o)) := by
  cases o <;> simp [ducklake_execute_query, errMsgOf]

/-- Witness for C2 on a concrete failing query outcome. -/
theorem c2_witness :
    (ducklake_execute_query (.queryError "boom") true "").status ≠ 0 ∧
    (ducklake_execute_query (.queryError "boom") true "").written =
      some .lastErrorBuffer ∧
    (ducklake_execute_query (.queryError "boom") true "").newBuf =
      errMsgOf (.queryError "boom") := by
  have h := (c2_execute_query_status (.queryError "boom") true "").2 (by decide)
  exact ⟨h.1, (h.2 rfl).1, (h.2 rfl).2⟩

/-- C3 counterexample: `ducklake_ensure_loaded` has no exception handler, so
when the underlying engine load throws, the exception propagates across the
bridge boundary instead of being encoded as a return code — the
exception-propagating branch is reachable for this bridge call. -/
theorem c3_counterexample :
    ducklake_ensure_loaded_call (.raises "ducklake load failed") =
      .propagates "ducklake load failed" ∧
    ducklake_ensure_loaded_call (.raises "ducklake load failed") ≠ .returns := by
  exact ⟨rfl, by decide⟩

/-- C3 amended: `ducklake_execute_query` never lets a `std::exception` cross
the bridge boundary — for every engine behaviour it returns normally (0, or 1
plus an out-parameter message); but `ducklake_ensure_loaded`, which has no
handler, propagates any exception raised by the underlying load, and returns
normally exactly when the load completes. -/
theorem c3_execute_query_no_unwind :
    (∀ (o : EngineOutcome) (nn : Bool) (buf : String),
      ducklake_execute_query_call o nn buf =
        .normal (ducklake_execute_query o nn buf)) ∧
    (∀ m : String, ducklake_ensure_loaded_call (.raises m) = .propagates m) ∧
    ducklake_ensure_loaded_call .completes = .returns := by
  refine ⟨?_, fun m => rfl, rfl⟩
  intro o nn buf
  cases o <;> rfl

/-- C8: the error message of a failing `ducklake_execute_query` call lives in
the single thread-local `last_error` buffer (the returned pointer's unique
target); it stays there unchanged until the next call on the same thread, and
a subsequent failing call on that thread writes the same buffer, overwriting
the previous message with the new one. -/
theorem c8_single_buffer_reuse (o1 o2 : EngineOutcome) (h1 : o1 ≠ .ok)
    (h2 : o2 ≠ .ok) (buf0 : String) :
    (ducklake_execute_query o1 true buf0).written = some .lastErrorBuffer ∧
    (ducklake_execute_query o1 true buf0).newBuf = errMsgOf o1 ∧
    (ducklake_execute_query o2 true
        (ducklake_execute_query o1 true buf0).newBuf).written =
      some .lastErrorBuffer ∧
    (ducklake_execute_query o2 true
        (ducklake_execute_query o1 true buf0).newBuf).newBuf = errMsgOf o2 := by
  cases o1 <;> cases o2 <;> simp_all [ducklake_execute_query, errMsgOf]

/-- Witness for C8: two consecutive failing calls on the same thread. -/
theorem c8_witness :
    (ducklake_execute_query (.queryError "first") true "").newBuf =
      errMsgOf (.queryError "first") ∧
    (ducklake_execute_query (.raised "second") true
        (ducklake_execute_query (.queryError "first") true "").newBuf).newBuf =
      errMsgOf (.raised "second") := by
  have h := c8_single_buffer_reuse (.queryError "first") (.raised "second")
    (by decide) (by decide) ""
  exact ⟨h.2.1, h.2.2.2⟩

/-- C9: `ducklake_execute_query` accepts a NULL `errmsg_out`: a failing call
with `errmsg_out = NULL` still returns its non-zero status and never writes
through the pointer; and on a successful call `*errmsg_out` is never written,
whatever the pointer's value. -/
theorem c9_null_errmsg_out (o : EngineOutcome) (nn : Bool) (buf : String) :
    (ducklake_execute_query o false buf).written = none ∧
    (o ≠ .ok → (ducklake_execute_query o false buf).status ≠ 0) ∧
    (ducklake_execute_query .ok nn buf).written = none := by
  cases o <;> simp [ducklake_execute_query]

/-- Witness for C9 on a concrete failing outcome with NULL `errmsg_out`. -/
theorem c9_witness :
    (ducklake_execute_query (.raised "oops") false "").written = none ∧
    (ducklake_execute_query (.raised "oops") false "").status ≠ 0 := by
  have h := c9_null_errmsg_out (.raised "oops") true ""
  exact ⟨h.1, h.2.1 (by decide)⟩

/- ===================================================================
   DuckLakeManager::CreateConnection and the per-backend catalog_attached
   flag (src/unnamed/part_001 lines 126-170)
   =================================================================== -/

/-- Result of the engine actually trying to mount the pgducklake catalog
(I/O, metadata access — external engine behaviour, a parameter of each
call). -/
inductive AttachResult where
  | okA
  | errA (msg : String)
  deriving Repr, DecidableEq

/-- Per-backend state surrounding `DuckLakeManager::CreateConnection`:
the static `catalog_attached` flag, whether the shared DuckDB instance
currently has the `pgducklake` catalog attached, how many times the engine
actually mounted it, how many ATTACH statements this backend has issued,
and the thread-local `last_error` buffer. -/
structure BackendState where
  catalog_attached : Bool
  engineHasCatalog : Bool
  engineAttachCount : Nat
  attachIssued : Nat
  last_error : String
  deriving Repr, DecidableEq

/-- Modelled from the spec: the engine's semantics of
`ATTACH IF NOT EXISTS ... AS pgducklake` (engine code outside this
repository). Re-attaching an already-attached catalog of the same name with
"if not exists" semantics is a no-op success that duplicates no state;
otherwise the engine either mounts the catalog or fails, per the `io`
parameter. Returns (catalog attached now, mount count now, query result). -/
def attachIfNotExists (hasCatalog : Bool) (cnt : Nat) (io : AttachResult) :
    Bool × Nat × AttachResult :=
  if hasCatalog then (true, cnt, .okA)
  else
    match io with
    | .okA => (true, cnt + 1, .okA)
    | .errA m => (false, cnt, .errA m)

/-- `DuckLakeManager::CreateConnection` (src/unnamed/part_001 lines 140-170):
if `catalog_attached` is still false and the data directory is a non-NULL,
non-empty string, issue the `ATTACH IF NOT EXISTS` query; on success set
`catalog_attached := true`, on error record the message in `last_error` and
leave the flag false so a later call retries. `dataDir` is
`pgducklake_get_data_dir()` (`none` for a NULL pointer). -/
def CreateConnection (dataDir : Option String) (io : AttachResult)
    (s : BackendState) : BackendState :=
  if s.catalog_attached then s
  else
    match dataDir with
    | none => s
    | some d =>
      if d.isEmpty then s
      else
        match attachIfNotExists s.engineHasCatalog s.engineAttachCount io with
        | (has, cnt, .okA) =>
            { s with engineHasCatalog := has, engineAttachCount := cnt,
                     attachIssued := s.attachIssued + 1,
                     catalog_attached := true }
        | (has, cnt, .errA m) =>
            { s with engineHasCatalog := has, engineAttachCount := cnt,
                     attachIssued := s.attachIssued + 1,
                     last_error := "ATTACH failed: " ++ m }

/-- A sequence of `CreateConnection` calls in one backend, the k-th call
seeing engine attach behaviour `ios[k]`. -/
def runConnections (dataDir : Option String) (ios : List AttachResult)
    (s : BackendState) : BackendState :=
  ios.foldl (fun t io => CreateConnection dataDir io t) s

/-- Backend state at backend start: flag down, no catalog mounted, no ATTACH
issued. -/
def initialBackendState : BackendState :=
  { catalog_attached := false, engineHasCatalog := false,
    engineAttachCount := 0, attachIssued := 0, last_error := "" }

lemma createConnection_of_attached (d : Option String) (io : AttachResult)
    (s : BackendState) (h : s.catalog_attached = true) :
    CreateConnection d io s = s := by
  simp [CreateConnection, h]

lemma createConnection_count_inv (d : Option String) (io : AttachResult)
    (s : BackendState)
    (h : s.engineAttachCount = if s.engineHasCatalog then 1 else 0) :
    (CreateConnection d io s).engineAttachCount =
      if (CreateConnection d io s).engineHasCatalog then 1 else 0 := by
  unfold CreateConnection
  by_cases ha : s.catalog_attached
  · simp [ha, h]
  · cases d with
    | none => simp [ha, h]
    | some dd =>
        by_cases he : dd.isEmpty
        · simp [ha, he, h]
        · by_cases hc : s.engineHasCatalog
          · simp [ha, he, attachIfNotExists, hc, h]
          · cases io with
            | okA => simp [ha, he, attachIfNotExists, hc] at h ⊢; omega
            | errA m => simp [ha, he, attachIfNotExists, hc, h]

lemma runConnections_count_inv (d : Option String) (ios : List AttachResult)
    (s : BackendState)
    (h : s.engineAttachCount = if s.engineHasCatalog then 1 else 0) :
    (runConnections d ios s).engineAttachCount =
      if (runConnections d ios s).engineHasCatalog then 1 else 0 := by
  induction ios generalizing s with
  | nil => exact h
  | cons io rest ih =>
      exact ih (CreateConnection d io s) (createConnection_count_inv d io s h)

/-- C4: catalog attachment is idempotent under "if not exists" semantics.
(1) the engine's ATTACH IF NOT EXISTS on an already-attached pgducklake
catalog of the same name errors on no input and changes no catalog state;
(2) across every sequence of `CreateConnection` calls in one backend starting
at backend start, the engine mounts the catalog at most once (no duplicated
catalog state); (3) after a successful attach (`catalog_attached = true`) a
later `CreateConnection` call changes nothing — in particular it never
issues the ATTACH again. -/
theorem c4_attach_idempotent (d : Option String) (ios : List AttachResult) :
    (∀ (cnt : Nat) (io : AttachResult),
      attachIfNotExists true cnt io = (true, cnt, .okA)) ∧
    (runConnections d ios initialBackendState).engineAttachCount ≤ 1 ∧
    (∀ (io : AttachResult) (s : BackendState), s.catalog_attached = true →
      CreateConnection d io s = s) := by
  refine ⟨fun cnt io => rfl, ?_, fun io s h => createConnection_of_attached d io s h⟩
  have h := runConnections_count_inv d ios initialBackendState (by rfl)
  rw [h]
  by_cases hc : (runConnections d ios initialBackendState).engineHasCatalog <;>
    simp [hc]

/-- Witness for C4 on a concrete three-call sequence whose first attach
fails and whose second succeeds. -/
theorem c4_witness :
    attachIfNotExists true 1 (.errA "io") = (true, 1, .okA) ∧
    (runConnections (some "/data") [.errA "io", .okA, .okA]
        initialBackendState).engineAttachCount ≤ 1 ∧
    CreateConnection (some "/data") (.okA)
        { catalog_attached := true, engineHasCatalog := true,
          engineAttachCount := 1, attachIssued := 1, last_error := "" } =
      { catalog_attached := true, engineHasCatalog := true,
        engineAttachCount := 1, attachIssued := 1, last_error := "" } := by
  have h := c4_attach_idempotent (some "/data") [.errA "io", .okA, .okA]
  exact ⟨h.1 1 (.errA "io"), h.2.1, h.2.2 (.okA) _ rfl⟩

/-- C10: the per-backend `catalog_attached` flag is monotonic.
(1) once true it stays true across any further `CreateConnection` call;
(2) from a state with the flag down, one call raises it iff the data
directory is a non-NULL non-empty string and the ATTACH succeeded (the
catalog was already mounted, or the engine mounted it on this call);
(3) when the ATTACH fails the flag stays false and the error is recorded,
and the next call issues the ATTACH again (retries). -/
theorem c10_flag_monotonic (d : Option String) (io : AttachResult)
    (s : BackendState) :
    (s.catalog_attached = true → (CreateConnection d io s).catalog_attached = true) ∧
    (s.catalog_attached = false →
      ((CreateConnection d io s).catalog_attached = true ↔
        (∃ dd, d = some dd ∧ dd.isEmpty = false) ∧
          (s.engineHasCatalog = true ∨ io = .okA))) ∧
    (∀ (dd : String) (m : String), d = some dd → dd.isEmpty = false →
      s.catalog_attached = false → s.engineHasCatalog = false → io = .errA m →
      (CreateConnection d io s).catalog_attached = false ∧
      (CreateConnection d io s).last_error = "ATTACH failed: " ++ m ∧
      (CreateConnection d io s).attachIssued = s.attachIssued + 1 ∧
      (∀ io2 : AttachResult,
        (CreateConnection d io2 (CreateConnection d io s)).attachIssued =
          s.attachIssued + 2)) := by
  refine ⟨?_, ?_, ?_⟩
  · intro h
    rw [createConnection_of_attached d io s h]
    exact h
  · intro h
    unfold CreateConnection
    cases d with
    | none => simp [h]
    | some dd =>
        by_cases he : dd.isEmpty
        · simp [h, he]
        · by_cases hc : s.engineHasCatalog
          · simp [h, he, hc, attachIfNotExists]
          · cases io with
            | okA => simp [h, he, hc, attachIfNotExists]
            | errA m => simp [h, he, hc, attachIfNotExists]
  · rintro dd m rfl he h hc rfl
    have hstep : CreateConnection (some dd) (.errA m) s =
        { s with engineHasCatalog := false, engineAttachCount := s.engineAttachCount,
                 attachIssued := s.attachIssued + 1,
                 last_error := "ATTACH failed: " ++ m } := by
      simp [CreateConnection, h, he, hc, attachIfNotExists]
    refine ⟨by rw [hstep]; exact h, by rw [hstep], by rw [hstep], ?_⟩
    intro io2
    rw [hstep]
    cases io2 with
    | okA => simp [CreateConnection, h, he, attachIfNotExists]
    | errA m2 => simp [CreateConnection, h, he, attachIfNotExists]

/-- Witness for C10: a failing attach followed by a successful retry in a
fresh backend. -/
theorem c10_witness :
    (CreateConnection (some "/data") (.errA "io") initialBackendState).catalog_attached
      = false ∧
    (CreateConnection (some "/data") (.errA "io")
        initialBackendState).last_error = "ATTACH failed: " ++ "io" ∧
    (CreateConnection (some "/data") (.okA)
        (CreateConnection (some "/data") (.errA "io")
          initialBackendState)).attachIssued = 0 + 2 ∧
    (CreateConnection (some "/data") (.okA)
        (CreateConnection (some "/data") (.errA "io")
          initialBackendState)).catalog_attached = true := by
  have h := c10_flag_monotonic (some "/data") (.errA "io") initialBackendState
  have h3 := h.2.2 "/data" "io" rfl (by decide) rfl rfl rfl
  refine ⟨h3.1, h3.2.1, h3.2.2.2 (.okA), ?_⟩
  have h2 := c10_flag_monotonic (some "/data") (.okA)
    (CreateConnection (some "/data") (.errA "io") initialBackendState)
  rw [(h2.2.1 h3.1).2]
  exact ⟨⟨"/data", rfl, by decide⟩, Or.inr rfl⟩

/- ===================================================================
   The verify operation pg_ducklake_next_verify
   (src/src/pg_ducklake_next.cpp lines 55-97, src/unnamed/part_001
   lines 46-90)
   =================================================================== -/

/-- Durable content of the session's ducklake catalog store (the metadata
file and data path named from the backend pid). Modelled from the spec: the
engine's SQL execution and ducklake's storage are external dependencies; the
spec's round-trip property fixes their observable behaviour — created tables
and inserted rows are durable, persisting across detach/attach. -/
structure LakeStore where
  tableExists : Bool
  rows : List Int
  deriving Repr, DecidableEq

/-- Session-visible catalog state: whether the session's alias is currently
attached in the shared DuckDB instance, plus the durable store behind it. -/
structure SessionState where
  attached : Bool
  store : LakeStore
  deriving Repr, DecidableEq

/-- Modelled from the spec: engine semantics of
`ATTACH ['ducklake:<path>' AS <alias>]`, with or without IF NOT EXISTS
(engine code outside this repository). Attaching an attached same-name
catalog errors unless "if not exists" was requested, in which case it is a
no-op success; the durable store is kept, never recreated. -/
def attachCatalog (ifNotExists : Bool) (s : SessionState) :
    Except String SessionState :=
  if s.attached then
    if ifNotExists then .ok s
    else .error "catalog with this name is already attached"
  else .ok { s with attached := true }

/-- Modelled from the spec: `CREATE TABLE <alias>.verify_table (i INTEGER)` —
a conflict error when the table already exists in the durable store (the
statement carries no IF NOT EXISTS). -/
def createVerifyTable (s : SessionState) : Except String SessionState :=
  if s.attached = false then .error "no such catalog"
  else if s.store.tableExists then .error "table verify_table already exists"
  else .ok { s with store := { s.store with tableExists := true } }

/-- Modelled from the spec: `INSERT INTO <alias>.verify_table VALUES ...`
appends the rows to the durable store. -/
def insertRows (vs : List Int) (s : SessionState) : Except String SessionState :=
  if s.attached = false ∨ s.store.tableExists = false then .error "no such table"
  else .ok { s with store := { s.store with rows := s.store.rows ++ vs } }

/-- Modelled from the spec: `SELECT i FROM <alias>.verify_table ORDER BY i`
returns the stored rows in nondecreasing order. -/
def selectOrdered (s : SessionState) : Except String (List Int) :=
  if s.attached = false ∨ s.store.tableExists = false then .error "no such table"
  else .ok (s.store.rows.insertionSort (· ≤ ·))

/-- Modelled from the spec: `DETACH <alias>` unmounts the catalog; the
durable store persists. -/
def detachCatalog (s : SessionState) : Except String SessionState :=
  if s.attached then .ok { s with attached := false }
  else .error "no such catalog"

/-- `pg_ducklake_next_verify` (src/src/pg_ducklake_next.cpp lines 55-97 and
src/unnamed/part_001 lines 46-90): issue, in order, the plain ATTACH (no IF
NOT EXISTS), CREATE TABLE verify_table with one INTEGER column, INSERT of
rows (1),(2), SELECT of the column ordered by it, and DETACH; the first
failing statement aborts the sequence with its error (ereport(ERROR)).
Returns the SELECT output and the session state after DETACH. (The SPI
variant's preceding INSTALL/LOAD statements manage extension state only and
touch no catalog state.) -/
def pg_ducklake_next_verify (s : SessionState) :
    Except String (List Int × SessionState) := do
  let s ← attachCatalog false s
  let s ← createVerifyTable s
  let s ← insertRows [1, 2] s
  let out ← selectOrdered s
  let s ← detachCatalog s
  return (out, s)

/-- The partial work of `pg_ducklake_next_verify` up to and including the
INSERT (the prefix ATTACH; CREATE; INSERT of the same statement sequence). -/
def verifyThroughInsert (s : SessionState) : Except String SessionState := do
  let s ← attachCatalog false s
  let s ← createVerifyTable s
  insertRows [1, 2] s

/-- A fresh session: nothing attached, empty durable store. -/
def freshSession : SessionState :=
  { attached := false, store := { tableExists := false, rows := [] } }

/-- C5: the verify round trip. From a fresh session, the verify sequence
succeeds and its ordered SELECT yields exactly [1, 2]; after its DETACH,
re-attaching the catalog with "if not exists" succeeds and the table with its
rows is still present — selecting again still yields [1, 2]. -/
theorem c5_verify_round_trip :
    pg_ducklake_next_verify freshSession =
      .ok ([1, 2], { attached := false,
                     store := { tableExists := true, rows := [1, 2] } }) ∧
    attachCatalog true
        { attached := false, store := { tableExists := true, rows := [1, 2] } } =
      .ok { attached := true, store := { tableExists := true, rows := [1, 2] } } ∧
    selectOrdered
        { attached := true, store := { tableExists := true, rows := [1, 2] } } =
      .ok [1, 2] := by
  refine ⟨rfl, rfl, rfl⟩

/-- C6 counterexample: run the verify sequence's prefix through the INSERT
from a fresh session (all three statements succeed), then let the SELECT fail
transiently — the partial work leaves the session catalog attached, and
re-invoking `pg_ducklake_next_verify` deterministically fails at its plain
ATTACH (duplicate catalog name): the retry is not safe and cannot succeed. -/
theorem c6_counterexample :
    verifyThroughInsert freshSession =
      .ok { attached := true, store := { tableExists := true, rows := [1, 2] } } ∧
    pg_ducklake_next_verify
        { attached := true, store := { tableExists := true, rows := [1, 2] } } =
      .error "catalog with this name is already attached" := by
  refine ⟨rfl, rfl⟩

/-- C6 amended: retry of `pg_ducklake_next_verify` is safe only for failures
that occur before the ATTACH takes effect: (1) if the ATTACH itself failed
(state unchanged, still fresh), re-invoking verify succeeds with [1, 2];
(2) once the ATTACH has succeeded, a failure at any later step leaves the
catalog attached and every retry fails at the plain ATTACH, whatever the
durable store holds; (3) even after a completed run (detached, table
durable), a re-invocation fails at CREATE TABLE since verify_table
persists. -/
theorem c6_retry_only_before_attach :
    pg_ducklake_next_verify freshSession =
      .ok ([1, 2], { attached := false,
                     store := { tableExists := true, rows := [1, 2] } }) ∧
    (∀ st : LakeStore,
      pg_ducklake_next_verify { attached := true, store := st } =
        .error "catalog with this name is already attached") ∧
    pg_ducklake_next_verify
        { attached := false, store := { tableExists := true, rows := [1, 2] } } =
      .error "table verify_table already exists" := by
  exact ⟨rfl, fun st => rfl, rfl⟩

/- ===================================================================
   The Host Adapter's ExecuteDuckDBQuery — bridge variant
   (src/unnamed/part_001 lines 23-37) and SPI variant
   (src/src/pg_ducklake_next.cpp lines 23-34)
   =================================================================== -/

/-- A PostgreSQL error report raised with `ereport(ERROR, ...)`: the primary
message and the detail line. -/
structure ErrorReport where
  message : String
  detail : String
  deriving Repr, DecidableEq

/-- Bridge-variant `ExecuteDuckDBQuery` (src/unnamed/part_001 lines 23-37):
calls `ducklake_ensure_loaded()` then
`ducklake_execute_query(query, &errmsg)` with a non-NULL, NULL-initialised
`errmsg`; on non-zero status raises an error whose message is
"pg_ducklake_next: DuckDB query failed: " followed by the pointed-at buffer
content (or "unknown error" when the pointer was never written) and whose
detail is "Query: " followed by the query text. `buf` is the thread-local
`last_error` content before the call. -/
def ExecuteDuckDBQuery (query : String) (o : EngineOutcome) (buf : String) :
    Except ErrorReport Unit :=
  if (ducklake_execute_query o true buf).status ≠ 0 then
    .error { message := "pg_ducklake_next: DuckDB query failed: " ++
               (match (ducklake_execute_query o true buf).written with
                | some .lastErrorBuffer => (ducklake_execute_query o true buf).newBuf
                | none => "unknown error"),
             detail := "Query: " ++ query }
  else .ok ()

/-- Behaviour of `SPI_execute` on
`SELECT duckdb.raw_query('<query>')`: it returns a non-negative code, returns
a negative SPI error code (`underlyingMsg` is the description of that
underlying failure, e.g. the name of the SPI error code — information the
caller never receives, only the bare `int`), or an error raised inside the
executor (e.g. pg_duckdb's own report of the engine failure) unwinds through
it. -/
inductive SpiOutcome where
  | okRet (ret : Nat)
  | negRet (code : Int) (underlyingMsg : String)
  | pgError (report : ErrorReport)
  deriving Repr, DecidableEq

/-- SPI-variant `ExecuteDuckDBQuery` (src/src/pg_ducklake_next.cpp lines
23-34): builds `SELECT duckdb.raw_query(<quoted query>)`, runs it through
`SPI_execute`, and only when the returned code is negative raises an error
with the fixed message "pg_ducklake_next: failed to execute DuckDB query" and
detail "Query: " followed by the query; an error raised inside `SPI_execute`
propagates unchanged. -/
def ExecuteDuckDBQuery_spi (query : String) (o : SpiOutcome) :
    Except ErrorReport Unit :=
  match o with
  | .okRet _ => .ok ()
  | .negRet _ _ =>
      .error { message := "pg_ducklake_next: failed to execute DuckDB query",
               detail := "Query: " ++ query }
  | .pgError r => .error r

/-- Whether `sub` occurs at the start of `s` (character lists). -/
def listStartsWith : List Char → List Char → Bool
  | _, [] => true
  | [], _ :: _ => false
  | a :: s, b :: t => a == b && listStartsWith s t

/-- Whether `sub` occurs contiguously anywhere in `s` (character lists). -/
def listHasSub : List Char → List Char → Bool
  | [], sub => listStartsWith [] sub
  | a :: rest, sub => listStartsWith (a :: rest) sub || listHasSub rest sub

/-- Whether the string `sub` occurs contiguously in the string `s`. -/
def strContains (s sub : String) : Bool :=
  listHasSub s.data sub.data

/-- C7 counterexample: in the SPI variant of `ExecuteDuckDBQuery`, a failing
`SPI_execute` (negative return, here -3 with underlying failure description
"SPI_ERROR_OPUNKNOWN") raises a report carrying the query text but not the
underlying error message: neither the report's message nor its detail
contains it — the claim that every failure report contains both the
operation text and the underlying message is false at this input. -/
theorem c7_counterexample :
    ExecuteDuckDBQuery_spi "SELECT 1" (.negRet (-3) "SPI_ERROR_OPUNKNOWN") =
      .error { message := "pg_ducklake_next: failed to execute DuckDB query",
               detail := "Query: SELECT 1" } ∧
    strContains "pg_ducklake_next: failed to execute DuckDB query"
      "SPI_ERROR_OPUNKNOWN" = false ∧
    strContains "Query: SELECT 1" "SPI_ERROR_OPUNKNOWN" = false := by
  refine ⟨rfl, by decide, by decide⟩

/-- C7 amended: the Host Adapter never swallows a failure. The bridge
variant of `ExecuteDuckDBQuery` raises, for every failing query, a report
whose detail carries the operation text and whose message carries the
underlying engine error message. The SPI variant always raises on failure,
but its own report carries only the operation text (a negative `SPI_execute`
code is reported without the underlying failure description), while an
engine-level failure propagates as the engine's own report, unchanged. -/
theorem c7_error_context (q : String) (o : EngineOutcome) (buf : String)
    (h : o ≠ .ok) :
    ExecuteDuckDBQuery q o buf =
      .error { message := "pg_ducklake_next: DuckDB query failed: " ++ errMsgOf o,
               detail := "Query: " ++ q } ∧
    strContains ("Query: " ++ q) q = true ∧
    (∀ (code : Int) (m : String),
      ExecuteDuckDBQuery_spi q (.negRet code m) =
        .error { message := "pg_ducklake_next: failed to execute DuckDB query",
                 detail := "Query: " ++ q }) ∧
    (∀ rep : ErrorReport,
      ExecuteDuckDBQuery_spi q (.pgError rep) = .error rep) := by
  refine ⟨?_, ?_, fun code m => rfl, fun rep => rfl⟩
  · cases o with
    | ok => exact absurd rfl h
    | queryError m => rfl
    | raised m => rfl
  · have hpre : ∀ l : List Char, listStartsWith l l = true := by
      intro l
      induction l with
      | nil => rfl
      | cons a t ih => simp [listStartsWith, ih]
    have key : ∀ (pre sub : List Char), listHasSub (pre ++ sub) sub = true := by
      intro pre sub
      induction pre with
      | nil =>
          cases sub with
          | nil => rfl
          | cons b t =>
              simp only [List.nil_append, listHasSub]
              rw [hpre]
              simp
      | cons a t ih =>
          simp only [List.cons_append, listHasSub, List.append_eq]
          rw [ih]
          simp
    have hdata : ("Query: " ++ q).data = ("Query: ").data ++ q.data := by
      simp [String.data_append]
    rw [strContains, hdata]
    exact key ("Query: ").data q.data

/-- Witness for C7 on a concrete failing query. -/
theorem c7_witness :
    ExecuteDuckDBQuery "SELECT 1" (.queryError "IO Error: disk full") "" =
      .error { message := "pg_ducklake_next: DuckDB query failed: " ++
                 errMsgOf (.queryError "IO Error: disk full"),
               detail := "Query: " ++ "SELECT 1" } ∧
    strContains ("Query: " ++ "SELECT 1") "SELECT 1" = true := by
  have h := c7_error_context "SELECT 1" (.queryError "IO Error: disk full") ""
    (by decide)
  exact ⟨h.1, h.2.1⟩

end PgDucklake
